import Mathlib

/-!
Shallow embedding of the twitch notification bot (src/twitch.js and
src/models/Stream.js).  Timestamps are modelled as integers counting
minutes; differenceInMinutes is exact subtraction and differenceInHours
is the minute difference truncated toward zero (date-fns truncates the
fractional part of the elapsed time).  JavaScript null/undefined is
modelled with Option, and JS truthiness of strings (empty string is
falsy) is made explicit at each use site.
-/

/-- Test whether the character list starts with the given pattern. -/
def matchesAt : List Char → List Char → Bool
  | [], _ => true
  | _ :: _, [] => false
  | n :: ns, h :: hs => n == h && matchesAt ns hs

/-- Search for the pattern anywhere in the haystack list. -/
def subSearch (needle : List Char) : List Char → Bool
  | [] => needle.isEmpty
  | c :: rest => matchesAt needle (c :: rest) || subSearch needle rest

/-- Model of the JavaScript String.includes substring test. -/
def strIncludes (hay sub : String) : Bool :=
  subSearch sub.toList hay.toList

/-- ASCII lowercasing of one character, the fragment of JS toLowerCase
the blacklist and keyword comparisons rely on. -/
def lowerChar (c : Char) : Char :=
  if 65 ≤ c.toNat && c.toNat ≤ 90 then Char.ofNat (c.toNat + 32) else c

/-- Model of the JS toLowerCase / toLocaleLowerCase calls. -/
def jsLower (s : String) : String :=
  String.mk (s.data.map lowerChar)

/-- JS truthiness of a nullable string: null/undefined and the empty
string are falsy, every other string is truthy. -/
def jsTruthyStr : Option String → Bool
  | some s => s ≠ ""
  | none => false

/-- A JavaScript number that may be NaN.  differenceInHours applied to a
null date yields NaN; every comparison with NaN is false. -/
inductive JsNum where
  | nan : JsNum
  | num : Int → JsNum
deriving Repr, DecidableEq

/-- Model of the JS comparison x >= 0 (false for NaN). -/
def JsNum.geZero : JsNum → Bool
  | JsNum.nan => false
  | JsNum.num n => decide (0 ≤ n)

/-- Model of the JS comparison x < m (false for NaN). -/
def JsNum.ltInt : JsNum → Int → Bool
  | JsNum.nan, _ => false
  | JsNum.num n, m => decide (n < m)

/-- The blacklist portion of config.twitch. -/
structure Blacklist where
  keywords : List String
  tagIds : List String
  userIds : List String
deriving Repr, DecidableEq

/-- The config.thresholds object. -/
structure Thresholds where
  reconnect_minutes : Int
  shoutout_hours : Int
deriving Repr, DecidableEq

/-- The configuration fields read by the stream lifecycle code:
config.twitch.blacklist, config.twitch.whitelist.userIds and
config.thresholds. -/
structure Config where
  blacklist : Blacklist
  whitelistUserIds : List String
  thresholds : Thresholds
deriving Repr, DecidableEq

/-- A TwitchStream as delivered by the platform API: the fields the
lifecycle and filtering code reads.  title and tag_ids may be absent. -/
structure TwitchStream where
  id : String
  user_id : String
  user_name : String
  title : Option String
  tag_ids : Option (List String)
deriving Repr, DecidableEq

/-- An ApplicationStream: a stream object as handled inside Stream.js,
carrying the lifecycle fields next to the platform metadata.  For a bare
TwitchStream the lifecycle fields are absent (undefined). -/
structure AppStream where
  id : Option String
  user_id : String
  user_name : String
  title : Option String
  tag_ids : Option (List String)
  isLive : Option Bool
  lastShoutOut : Option Int
  offline_since : Option Int
deriving Repr, DecidableEq

/-- A DatabaseStream row: like AppStream but with the id renamed to
stream_id by convertToDStream. -/
structure DbStream where
  user_id : String
  user_name : String
  title : Option String
  tag_ids : Option (List String)
  isLive : Option Bool
  lastShoutOut : Option Int
  offline_since : Option Int
  stream_id : Option String
deriving Repr, DecidableEq

/-- View of a TwitchStream as an AppStream: the lifecycle fields are
undefined on the wire object. -/
def tsToApp (u : TwitchStream) : AppStream :=
  { id := some u.id
    user_id := u.user_id
    user_name := u.user_name
    title := u.title
    tag_ids := u.tag_ids
    isLive := none
    lastShoutOut := none
    offline_since := none }

/-- View of a DbStream row as the object alertStream and isWhitelisted
receive in the goneLive path. -/
def dbToApp (d : DbStream) : AppStream :=
  { id := d.stream_id
    user_id := d.user_id
    user_name := d.user_name
    title := d.title
    tag_ids := d.tag_ids
    isLive := d.isLive
    lastShoutOut := d.lastShoutOut
    offline_since := d.offline_since }

namespace Streams

/-- Model of convertToDStream: rename id to stream_id and pass the
lifecycle fields through (the source ternary of the shape
x != null ? x : null is the identity on nullable values). -/
def convertToDStream (istream : AppStream) : DbStream :=
  { user_id := istream.user_id
    user_name := istream.user_name
    title := istream.title
    tag_ids := istream.tag_ids
    isLive := istream.isLive
    lastShoutOut := istream.lastShoutOut
    offline_since := istream.offline_since
    stream_id := istream.id }

/-- Outcome of one alertStream call.  titleError is the TypeError thrown
when the first debug line dereferences a null/undefined title; the
blacklist outcomes are the three explicit throws; notified means the
notifier (discordBot.newStreamAlert) was actually invoked, carrying
whether its promise resolved. -/
inductive AlertOutcome where
  | titleError : AlertOutcome
  | blacklistedKeyword : AlertOutcome
  | blacklistedTag : AlertOutcome
  | blacklistedUser : AlertOutcome
  | notified : Bool → AlertOutcome
deriving Repr, DecidableEq

/-- Whether the outcome means the notifier was invoked. -/
def AlertOutcome.invokedNotifier : AlertOutcome → Bool
  | AlertOutcome.notified _ => true
  | _ => false

/-- Whether the outcome is a resolved alert (the await in the callers
succeeds); any other outcome is a rejection caught by the caller. -/
def AlertOutcome.resolvedOk : AlertOutcome → Bool
  | AlertOutcome.notified ok => ok
  | _ => false

/-- Model of alertStream.  The first debug statement evaluates
stream.title.toLowerCase() unguarded, so a null title rejects before any
blacklist check.  The keyword check is guarded by the truthiness of the
title (an empty title skips it), the tag check by the presence of
tag_ids (an empty array is truthy in JS) and the user check by the
truthiness of user_id.  notifierOk tells whether the external notifier
resolves when it is reached. -/
def alertStream (cfg : Config) (stream : AppStream) (notifierOk : Bool) : AlertOutcome :=
  match stream.title with
  | none => AlertOutcome.titleError
  | some t =>
    if t ≠ "" && cfg.blacklist.keywords.any (fun kw => strIncludes (jsLower t) (jsLower kw)) then
      AlertOutcome.blacklistedKeyword
    else if (match stream.tag_ids with
             | some tids => cfg.blacklist.tagIds.any (fun tg => tids.contains tg)
             | none => false) then
      AlertOutcome.blacklistedTag
    else if stream.user_id ≠ "" && cfg.blacklist.userIds.contains stream.user_id then
      AlertOutcome.blacklistedUser
    else
      AlertOutcome.notified notifierOk

/-- Model of isWhitelisted: membership of user_id in
config.twitch.whitelist.userIds. -/
def isWhitelisted (cfg : Config) (stream : AppStream) : Bool :=
  cfg.whitelistUserIds.contains stream.user_id

/-- Model of the JS object spread of two row-shaped objects: the merge
of stream with convertToDStream(update).  convertToDStream always
produces every modelled key (the lifecycle fields explicitly, as null
when absent), so each modelled field of the merge is taken from the
right operand. -/
def spreadMergeDb (_stream b : DbStream) : DbStream := b

/-- What one call of the update module function does: which row object
it hands to the database update and which user_id it filters on.  The
merged object updatedStream is computed, but the row passed to
dbTable().update is the first argument stream itself. -/
structure UpdateCall where
  row : DbStream
  whereUserId : String
deriving Repr, DecidableEq

/-- Model of the update module function. -/
def update (stream : DbStream) (upd : Option TwitchStream) : UpdateCall :=
  let updatedStream : DbStream :=
    match upd with
    | some u => spreadMergeDb stream (convertToDStream (tsToApp u))
    | none => stream
  { row := stream, whereUserId := updatedStream.user_id }

/-- The updatedStream object built at the top of goneLive: the spread of
the database row with the converted update, then isLive forced true and
lastShoutOut / offline_since restored from the database row. -/
def goneLiveMerge (stream : DbStream) (upd : TwitchStream) : DbStream :=
  { convertToDStream (tsToApp upd) with
      isLive := some true
      lastShoutOut := stream.lastShoutOut
      offline_since := stream.offline_since }

/-- The lastShoutOutAgeHours value computed in goneLive:
differenceInHours of now and lastShoutOut, truncated toward zero; NaN
when lastShoutOut is null. -/
def shoutOutAgeHours (now : Int) (d : DbStream) : JsNum :=
  match d.lastShoutOut with
  | none => JsNum.nan
  | some t => JsNum.num (Int.tdiv (now - t) 60)

/-- The offlineSinceMinutes value computed in goneLive: null when
offline_since is null, otherwise differenceInMinutes of now and
offline_since. -/
def offlineSinceMinutes (now : Int) (d : DbStream) : Option Int :=
  match d.offline_since with
  | none => none
  | some t => some (now - t)

/-- The first suppression condition of goneLive: offlineSinceMinutes is
not null and below the reconnect_minutes threshold. -/
def reconnectBlip (cfg : Config) (now : Int) (d : DbStream) : Bool :=
  match offlineSinceMinutes now d with
  | some m => decide (m < cfg.thresholds.reconnect_minutes)
  | none => false

/-- The second suppression condition of goneLive: the age since the last
shoutout is a number (never null), at least zero, below the
shoutout_hours threshold, and the channel is not whitelisted. -/
def repeatShoutOutSuppressed (cfg : Config) (now : Int) (d : DbStream) : Bool :=
  (shoutOutAgeHours now d).geZero
    && (shoutOutAgeHours now d).ltInt cfg.thresholds.shoutout_hours
    && !(isWhitelisted cfg (dbToApp d))

/-- The stamping of lastShoutOut in the try block of goneLive and
addNew: when the awaited alert resolved, lastShoutOut becomes now,
otherwise the record is left as it was. -/
def finalize (now : Int) (d : DbStream) (oc : AlertOutcome) : DbStream :=
  if oc.resolvedOk then { d with lastShoutOut := some now } else d

/-- The same stamping on an application-shaped object, as in addNew. -/
def finalizeApp (now : Int) (a : AppStream) (oc : AlertOutcome) : AppStream :=
  if oc.resolvedOk then { a with lastShoutOut := some now } else a

/-- Result of one goneLive reconciliation: the row handed to the update
module function, whether alertStream was invoked at all and with which
outcome, whether the external notifier was reached, and whether the
webhook subscription was performed. -/
structure GoneLiveResult where
  persisted : DbStream
  alertAttempted : Bool
  outcome : Option AlertOutcome
  notifierCalled : Bool
  subscribed : Bool
deriving Repr, DecidableEq

/-- Model of goneLive.  The three branches mirror the source: the
reconnect-blip suppression, the repeat-shoutout suppression, and the
alert attempt whose success refreshes lastShoutOut; the webhook
subscription and the persistence happen on every path, and the object
persisted is the one the update module function writes, namely the
final updatedStream itself. -/
def goneLive (cfg : Config) (now : Int) (stream : DbStream) (upd : TwitchStream)
    (notifierOk : Bool) : GoneLiveResult :=
  let updatedStream := goneLiveMerge stream upd
  if reconnectBlip cfg now updatedStream then
    { persisted := (update updatedStream none).row
      alertAttempted := false
      outcome := none
      notifierCalled := false
      subscribed := true }
  else if repeatShoutOutSuppressed cfg now updatedStream then
    { persisted := (update updatedStream none).row
      alertAttempted := false
      outcome := none
      notifierCalled := false
      subscribed := true }
  else
    let oc := alertStream cfg (dbToApp updatedStream) notifierOk
    let finalStream := finalize now updatedStream oc
    { persisted := (update finalStream none).row
      alertAttempted := true
      outcome := some oc
      notifierCalled := oc.invokedNotifier
      subscribed := true }

/-- Result of one addNew call: the row handed to create (which inserts
convertToDStream of its argument), the alert outcome, whether the
notifier was reached and whether the subscription was performed. -/
structure AddNewResult where
  persisted : DbStream
  outcome : AlertOutcome
  notifierCalled : Bool
  subscribed : Bool
deriving Repr, DecidableEq

/-- Model of addNew: build the new record as live with lastShoutOut and
offline_since null, attempt the alert, stamp lastShoutOut on success,
subscribe in the finally block, and insert the converted record. -/
def addNew (cfg : Config) (now : Int) (stream : TwitchStream) (notifierOk : Bool) : AddNewResult :=
  let newStream : AppStream :=
    { tsToApp stream with isLive := some true, lastShoutOut := none, offline_since := none }
  let oc := alertStream cfg newStream notifierOk
  let newStream2 := finalizeApp now newStream oc
  { persisted := convertToDStream newStream2
    outcome := oc
    notifierCalled := oc.invokedNotifier
    subscribed := true }

end Streams

namespace Twitch

/-- One resolved response of the token endpoint, as seen through
apiRequest: a 200 response decoded to a JSON body whose access_token
field may be absent, or any other non-401 status, which apiRequest
returns as a bare number (destructuring a number yields undefined). -/
inductive ExchangeResult where
  | ok : Option String → ExchangeResult
  | httpStatus : Nat → ExchangeResult
deriving Repr, DecidableEq

/-- Model of ensureToken over the process-wide token variable and a
script of token-endpoint responses.  Returns the resolved value, the
token variable afterwards, and the remaining script.  An exhausted
script (a call that would need a response the script does not provide)
resolves to undefined and consumes nothing. -/
def ensureToken (token : Option String) (supply : List ExchangeResult) :
    Option String × Option String × List ExchangeResult :=
  if jsTruthyStr token then (token, token, supply)
  else
    match supply with
    | [] => (none, token, [])
    | ExchangeResult.ok at_ :: rest => (at_, at_, rest)
    | ExchangeResult.httpStatus _ :: rest => (none, none, rest)

/-- One scripted HTTP response for the main request chain. -/
structure Resp where
  status : Nat
  body : String
deriving Repr, DecidableEq

/-- A resolved JS value of the apiRequest promise: undefined, a bare
numeric status, or the decoded body of a 200 response. -/
inductive ApiVal where
  | undef : ApiVal
  | status : Nat → ApiVal
  | body : String → ApiVal
deriving Repr, DecidableEq

/-- Overall outcome of an apiRequest chain: either the process exits
(process.exit on a 401 with the budget exhausted, possibly inside the
re-issued request) or the outer promise resolves to a value. -/
inductive ApiOut where
  | exit : Nat → ApiOut
  | val : ApiVal → ApiOut
deriving Repr, DecidableEq

/-- Model of apiRequest over a script of responses for the logical
request (one entry per issued HTTP request) and a script for the token
endpoint.  Mirrors the source promise chain: a 401 clears the token and,
with budget left, the rejection handler re-acquires a token and
re-issues the request with the budget decremented, but does not return
that chain, so the outer promise resolves to undefined while the retry
runs for its side effects only (a process.exit inside the retry still
terminates the process).  A non-401, non-200 status resolves to the bare
status; a 200 resolves to the decoded body.  Returns the outcome, the
token variable afterwards, and the remaining token-endpoint script. -/
def apiRequest (responses : List Resp) (retries : Nat) (token : Option String)
    (supply : List ExchangeResult) : ApiOut × Option String × List ExchangeResult :=
  match responses with
  | [] => (ApiOut.val ApiVal.undef, token, supply)
  | r :: rest =>
    if r.status == 401 then
      if retries == 0 then
        (ApiOut.exit 1, none, supply)
      else
        let et := ensureToken none supply
        let retry := apiRequest rest (retries - 1) et.2.1 et.2.2
        match retry.1 with
        | ApiOut.exit c => (ApiOut.exit c, retry.2.1, retry.2.2)
        | ApiOut.val _ => (ApiOut.val ApiVal.undef, retry.2.1, retry.2.2)
    else if r.status == 200 then
      (ApiOut.val (ApiVal.body r.body), token, supply)
    else
      (ApiOut.val (ApiVal.status r.status), token, supply)

/-- A raw tag object of one tag-catalog page. -/
structure TagRaw where
  tag_id : String
  name_en : String
deriving Repr, DecidableEq

/-- The mapped tag entry getAllTags accumulates. -/
structure TagEntry where
  id : String
  name : String
deriving Repr, DecidableEq

/-- One scripted page of the tag catalog: the data array may be absent
(distinct from present but empty), and the pagination cursor may be
absent or empty (both falsy). -/
structure TagPage where
  data : Option (List TagRaw)
  cursor : Option String
deriving Repr, DecidableEq

/-- Model of getAllTags over a page script (each recursive call with the
previous cursor consumes the next scripted page).  Mirrors the source:
a missing data array returns the accumulator, otherwise the mapped page
is appended and pagination continues exactly when the cursor is truthy.
An exhausted script means the code would issue another request; that is
modelled as none. -/
def getAllTags (pages : List TagPage) (tags : List TagEntry) : Option (List TagEntry) :=
  match pages with
  | [] => none
  | p :: rest =>
    match p.data with
    | none => some tags
    | some d =>
      let newTags := tags ++ d.map (fun t => { id := t.tag_id, name := t.name_en })
      if jsTruthyStr p.cursor then getAllTags rest newTags else some newTags

/-- One scripted page of the stream listing. -/
structure StreamPage where
  data : Option (List TwitchStream)
  cursor : Option String
deriving Repr, DecidableEq

/-- Model of getStreams over a page script.  Mirrors the source: a
missing data array returns the accumulator, otherwise the page is
appended and pagination continues exactly when the cursor is truthy and
the page holds at least 100 items. -/
def getStreams (pages : List StreamPage) (streams : List TwitchStream) :
    Option (List TwitchStream) :=
  match pages with
  | [] => none
  | p :: rest =>
    match p.data with
    | none => some streams
    | some d =>
      let newStreams := streams ++ d
      if jsTruthyStr p.cursor && decide (100 ≤ d.length) then getStreams rest newStreams
      else some newStreams

/-- The tag filter of getStreamsByTagId: the stream has a tag_ids array
and some of its tags is in the requested tag id list. -/
def tagFilterMatch (tagIds : List String) (s : TwitchStream) : Bool :=
  match s.tag_ids with
  | some tids => tids.any (fun i => tagIds.contains i)
  | none => false

/-- The keyword filter of getStreamsByKeywords: the stream has a truthy
title and some requested keyword is a case-insensitive substring. -/
def kwFilterMatch (keywords : List String) (s : TwitchStream) : Bool :=
  match s.title with
  | some t => t ≠ "" && keywords.any (fun kw => strIncludes (jsLower t) (jsLower kw))
  | none => false

/-- Model of getStreamsByTagId, over the stream list the shared
getStreams fetch returns. -/
def getStreamsByTagId (streams : List TwitchStream) (tagIds : List String) :
    List TwitchStream :=
  streams.filter (tagFilterMatch tagIds)

/-- Model of getStreamsByKeywords, over the stream list the shared
getStreams fetch returns. -/
def getStreamsByKeywords (streams : List TwitchStream) (keywords : List String) :
    List TwitchStream :=
  streams.filter (kwFilterMatch keywords)

/-- Modelled from the claim words for the tag catalog (C4): pagination
stops as soon as the data page is empty (absent or zero-length) or no
cursor is returned, the result being the concatenation of the mapped
page data up to and including that stop.  Kept next to the source
translation getAllTags for comparison. -/
def tagCatalogClaim : List TagPage → Option (List TagEntry)
  | [] => none
  | p :: rest =>
    let d := (p.data.getD []).map
      (fun t => ({ id := t.tag_id, name := t.name_en } : TagEntry))
    if (p.data.getD []).isEmpty || !jsTruthyStr p.cursor then some d
    else (tagCatalogClaim rest).map (fun ts => d ++ ts)

/-- The tag-catalog pagination as the amended claim states it: stop when
the response carries no data array at all or a falsy cursor; an
empty-but-present data page with a truthy cursor continues; the result
is the concatenation of the mapped page data up to the stop. -/
def tagCatalogAmended : List TagPage → Option (List TagEntry)
  | [] => none
  | p :: rest =>
    match p.data with
    | none => some []
    | some d =>
      let mapped := d.map (fun t => ({ id := t.tag_id, name := t.name_en } : TagEntry))
      if jsTruthyStr p.cursor then (tagCatalogAmended rest).map (fun ts => mapped ++ ts)
      else some mapped

/-- The stream-listing pagination as the claim states it: stop when the
response carries no data array, a falsy cursor, or a page of fewer than
100 items (an empty page in particular); the result is the
concatenation of the page data up to the stop. -/
def streamListAmended : List StreamPage → Option (List TwitchStream)
  | [] => none
  | p :: rest =>
    match p.data with
    | none => some []
    | some d =>
      if jsTruthyStr p.cursor && decide (100 ≤ d.length) then
        (streamListAmended rest).map (fun ss => d ++ ss)
      else some d

/-- One step of the reduce in getStreamsByMetadata: keep the accumulator
if it already holds a stream with the same id, else append. -/
def dedupStep (acc : List TwitchStream) (s : TwitchStream) : List TwitchStream :=
  if (acc.find? (fun x => x.id == s.id)).isSome then acc else acc ++ [s]

/-- Model of getStreamsByMetadata.  Both sub-queries fetch the stream
list with the same deterministic page script, so both filters run over
the same list; the two filtered lists are concatenated (tag results
first) and deduplicated by stream id with the reduce above. -/
def getStreamsByMetadata (streams : List TwitchStream) (tagIds keywords : List String) :
    List TwitchStream :=
  ((getStreamsByTagId streams tagIds) ++ (getStreamsByKeywords streams keywords)).foldl
    dedupStep []

end Twitch

/-- Configuration for the C2 scenario: reconnect_minutes 5, shoutout
hours 6, nothing blacklisted or whitelisted. -/
def cfgC2 : Config :=
  { blacklist := { keywords := [], tagIds := [], userIds := [] }
    whitelistUserIds := []
    thresholds := { reconnect_minutes := 5, shoutout_hours := 6 } }

/-- Persisted row for the C2 scenario: offline since minute 97, observed
again at minute 100 (3 minutes later). -/
def dbC2 : DbStream :=
  { user_id := "u1", user_name := "U", title := some "old", tag_ids := some []
    isLive := some false, lastShoutOut := some 0, offline_since := some 97
    stream_id := some "s0" }

/-- Observed stream for the C2 scenario. -/
def upC2 : TwitchStream :=
  { id := "s1", user_id := "u1", user_name := "U", title := some "hello", tag_ids := some [] }

/-- Configuration for the C3 scenarios. -/
def cfgC3 : Config :=
  { blacklist := { keywords := [], tagIds := [], userIds := [] }
    whitelistUserIds := []
    thresholds := { reconnect_minutes := 5, shoutout_hours := 6 } }

/-- Persisted row whose lastShoutOut lies 900 minutes in the future of
the observation instant 100 (computed hours delta is negative). -/
def dbC3a : DbStream :=
  { user_id := "u1", user_name := "U", title := some "old", tag_ids := some []
    isLive := some false, lastShoutOut := some 1000, offline_since := none
    stream_id := some "s0" }

/-- Persisted row whose offline_since lies 10 minutes in the future of
the observation instant 100 (computed minutes delta is negative). -/
def dbC3b : DbStream :=
  { user_id := "u1", user_name := "U", title := some "old", tag_ids := some []
    isLive := some false, lastShoutOut := some 0, offline_since := some 110
    stream_id := some "s0" }

/-- Observed stream for the C3 scenarios. -/
def upC3 : TwitchStream :=
  { id := "s1", user_id := "u1", user_name := "U", title := some "hello", tag_ids := some [] }

/-- Configuration for the C6 scenario without a whitelist entry. -/
def cfgC6 : Config :=
  { blacklist := { keywords := [], tagIds := [], userIds := [] }
    whitelistUserIds := []
    thresholds := { reconnect_minutes := 5, shoutout_hours := 6 } }

/-- Configuration for the C6 scenario with the channel whitelisted. -/
def cfgC6w : Config :=
  { blacklist := { keywords := [], tagIds := [], userIds := [] }
    whitelistUserIds := ["u1"]
    thresholds := { reconnect_minutes := 5, shoutout_hours := 6 } }

/-- Persisted row for the C6 scenario: alerted at minute 880, observed
again at minute 1000 (2 hours later, threshold 6 hours). -/
def dbC6 : DbStream :=
  { user_id := "u1", user_name := "U", title := some "old", tag_ids := some []
    isLive := some false, lastShoutOut := some 880, offline_since := none
    stream_id := some "s0" }

/-- Observed stream for the C6 scenario. -/
def upC6 : TwitchStream :=
  { id := "s1", user_id := "u1", user_name := "U", title := some "hello", tag_ids := some [] }

/-- Blacklist membership as the amended claim states it: a non-empty
title containing some blacklisted keyword (case-insensitive substring),
or a tag set intersecting the blacklisted tag ids, or a non-empty
channel id in the blacklisted user ids. -/
def claimBlacklisted (cfg : Config) (s : AppStream) : Bool :=
  (match s.title with
   | some t => t ≠ "" && cfg.blacklist.keywords.any (fun kw => strIncludes (jsLower t) (jsLower kw))
   | none => false)
  || (match s.tag_ids with
      | some tids => cfg.blacklist.tagIds.any (fun tg => tids.contains tg)
      | none => false)
  || (s.user_id ≠ "" && cfg.blacklist.userIds.contains s.user_id)

/-- Configuration for the C7 counterexample: the empty keyword and the
empty user id are blacklisted. -/
def cfgC7x : Config :=
  { blacklist := { keywords := [""], tagIds := [], userIds := [""] }
    whitelistUserIds := []
    thresholds := { reconnect_minutes := 5, shoutout_hours := 6 } }

/-- Observed stream for the C7 counterexample: empty title, empty
channel id, no tags. -/
def upC7x : TwitchStream :=
  { id := "s1", user_id := "", user_name := "U", title := some "", tag_ids := none }

/-- Persisted row for the C7 counterexample, outside both suppression
windows so the goneLive path reaches the alert attempt. -/
def dbC7x : DbStream :=
  { user_id := "", user_name := "U", title := some "old", tag_ids := none
    isLive := some false, lastShoutOut := none, offline_since := none
    stream_id := some "s0" }

/-- Configuration for the C7 witness. -/
def cfgC7 : Config :=
  { blacklist := { keywords := ["BAD"], tagIds := [], userIds := [] }
    whitelistUserIds := []
    thresholds := { reconnect_minutes := 5, shoutout_hours := 6 } }

/-- Observed stream for the C7 witness: title holding the blacklisted
keyword in different case. -/
def upC7 : TwitchStream :=
  { id := "s1", user_id := "u1", user_name := "U", title := some "so bad today"
    tag_ids := some [] }

/-- Persisted row for the C7 witness, outside both suppression
windows. -/
def dbC7 : DbStream :=
  { user_id := "u1", user_name := "U", title := some "old", tag_ids := some []
    isLive := some false, lastShoutOut := none, offline_since := none
    stream_id := some "s0" }

/-- Configuration for the C10 scenario. -/
def cfgC10 : Config :=
  { blacklist := { keywords := ["bad"], tagIds := ["bt"], userIds := ["bu"] }
    whitelistUserIds := []
    thresholds := { reconnect_minutes := 5, shoutout_hours := 6 } }

/-- Persisted row for the C10 scenario, outside both suppression
windows. -/
def dbC10 : DbStream :=
  { user_id := "u1", user_name := "U", title := some "old", tag_ids := some []
    isLive := some false, lastShoutOut := none, offline_since := none
    stream_id := some "s0" }

/-- Observed stream with no title for the C10 scenario. -/
def upC10 : TwitchStream :=
  { id := "s1", user_id := "u1", user_name := "U", title := none, tag_ids := none }

/-- Token-endpoint script for the C8 scenarios. -/
def supC8 : List Twitch.ExchangeResult :=
  [Twitch.ExchangeResult.ok (some ""), Twitch.ExchangeResult.ok (some "a")]

/-- First stream of the C5 counterexample: channel u, stream id 1. -/
def s1C5 : TwitchStream :=
  { id := "1", user_id := "u", user_name := "U", title := some "x", tag_ids := some ["t"] }

/-- Second stream of the C5 counterexample: the same channel u under a
different stream id. -/
def s2C5 : TwitchStream :=
  { id := "2", user_id := "u", user_name := "U", title := some "x", tag_ids := some ["t"] }

/-- Stream for the C5 witness: matched by both the tag filter and the
keyword filter. -/
def sC5w : TwitchStream :=
  { id := "1", user_id := "u", user_name := "U", title := some "xy", tag_ids := some ["t"] }

/-! Helper lemmas shared by the claim theorems. -/

@[simp]
lemma goneLiveMerge_offline_since (stream : DbStream) (upd : TwitchStream) :
    (Streams.goneLiveMerge stream upd).offline_since = stream.offline_since := rfl

@[simp]
lemma goneLiveMerge_lastShoutOut (stream : DbStream) (upd : TwitchStream) :
    (Streams.goneLiveMerge stream upd).lastShoutOut = stream.lastShoutOut := rfl

@[simp]
lemma goneLiveMerge_user_id (stream : DbStream) (upd : TwitchStream) :
    (Streams.goneLiveMerge stream upd).user_id = upd.user_id := rfl

@[simp]
lemma goneLiveMerge_title (stream : DbStream) (upd : TwitchStream) :
    (Streams.goneLiveMerge stream upd).title = upd.title := rfl

@[simp]
lemma goneLiveMerge_tag_ids (stream : DbStream) (upd : TwitchStream) :
    (Streams.goneLiveMerge stream upd).tag_ids = upd.tag_ids := rfl

@[simp]
lemma goneLiveMerge_isLive (stream : DbStream) (upd : TwitchStream) :
    (Streams.goneLiveMerge stream upd).isLive = some true := rfl

@[simp]
lemma update_none_row (d : DbStream) : (Streams.update d none).row = d := rfl

@[simp]
lemma finalize_isLive (now : Int) (d : DbStream) (oc : Streams.AlertOutcome) :
    (Streams.finalize now d oc).isLive = d.isLive := by
  unfold Streams.finalize
  split <;> rfl

@[simp]
lemma finalize_offline_since (now : Int) (d : DbStream) (oc : Streams.AlertOutcome) :
    (Streams.finalize now d oc).offline_since = d.offline_since := by
  unfold Streams.finalize
  split <;> rfl

@[simp]
lemma finalize_user_id (now : Int) (d : DbStream) (oc : Streams.AlertOutcome) :
    (Streams.finalize now d oc).user_id = d.user_id := by
  unfold Streams.finalize
  split <;> rfl

@[simp]
lemma finalize_lastShoutOut (now : Int) (d : DbStream) (oc : Streams.AlertOutcome) :
    (Streams.finalize now d oc).lastShoutOut
      = if oc.resolvedOk then some now else d.lastShoutOut := by
  unfold Streams.finalize
  split <;> simp [*]

@[simp]
lemma finalizeApp_isLive (now : Int) (a : AppStream) (oc : Streams.AlertOutcome) :
    (Streams.finalizeApp now a oc).isLive = a.isLive := by
  unfold Streams.finalizeApp
  split <;> rfl

@[simp]
lemma finalizeApp_lastShoutOut (now : Int) (a : AppStream) (oc : Streams.AlertOutcome) :
    (Streams.finalizeApp now a oc).lastShoutOut
      = if oc.resolvedOk then some now else a.lastShoutOut := by
  unfold Streams.finalizeApp
  split <;> simp [*]

@[simp]
lemma reconnectBlip_goneLiveMerge (cfg : Config) (now : Int) (stream : DbStream)
    (upd : TwitchStream) :
    Streams.reconnectBlip cfg now (Streams.goneLiveMerge stream upd)
      = Streams.reconnectBlip cfg now stream := rfl

/-! Claim C9: the update module function persists its first argument and
ignores the merged object. -/

/-- C9: for every call of update with a non-null update argument, the
row handed to the database is the first argument, unmodified; the merged
object is computed but only its user_id is consulted, for the where
clause, so fields supplied only through the update argument are never
persisted. -/
theorem c9_update_persists_first_argument (stream : DbStream) (u : TwitchStream) :
    (Streams.update stream (some u)).row = stream ∧
    (Streams.update stream (some u)).whereUserId
      = (Streams.spreadMergeDb stream (Streams.convertToDStream (tsToApp u))).user_id := by
  exact ⟨rfl, rfl⟩

/-! Claim C2: reconnect-blip suppression.  The code suppresses the alert
and keeps lastShoutOut, but it does not clear offline_since: the merge
at the top of goneLive explicitly restores offline_since from the
persisted row, and that row is what gets written. -/

/-- C2 as amended: in the reconnect-blip window no alert is attempted,
the notifier is not called, lastShoutOut is unchanged and the record is
persisted as live, but offline_since is preserved unchanged rather than
cleared. -/
theorem c2_reconnect_blip (cfg : Config) (now : Int) (stream : DbStream) (upd : TwitchStream)
    (ok : Bool) (t : Int) (hoff : stream.offline_since = some t)
    (hblip : now - t < cfg.thresholds.reconnect_minutes) :
    (Streams.goneLive cfg now stream upd ok).alertAttempted = false ∧
    (Streams.goneLive cfg now stream upd ok).notifierCalled = false ∧
    (Streams.goneLive cfg now stream upd ok).persisted.lastShoutOut = stream.lastShoutOut ∧
    (Streams.goneLive cfg now stream upd ok).persisted.isLive = some true ∧
    (Streams.goneLive cfg now stream upd ok).persisted.offline_since = stream.offline_since := by
  have hb : Streams.reconnectBlip cfg now stream = true := by
    simp [Streams.reconnectBlip, Streams.offlineSinceMinutes, hoff]
    exact hblip
  refine ⟨?_, ?_, ?_, ?_, ?_⟩ <;> simp [Streams.goneLive, hb]

/-- C2 counterexample: in the reconnect-blip scenario the alert is
indeed suppressed, but the persisted row still carries the old
offline_since value; it is not cleared to null as the claim states. -/
theorem c2_reconnect_blip_counterexample :
    (Streams.goneLive cfgC2 100 dbC2 upC2 true).alertAttempted = false ∧
    (Streams.goneLive cfgC2 100 dbC2 upC2 true).persisted.isLive = some true ∧
    (Streams.goneLive cfgC2 100 dbC2 upC2 true).persisted.offline_since = some 97 ∧
    (Streams.goneLive cfgC2 100 dbC2 upC2 true).persisted.offline_since ≠ none := by
  refine ⟨by decide, by decide, by decide, by decide⟩

/-- C2 witness: the amended theorem applied to the concrete blip
scenario. -/
theorem c2_reconnect_blip_witness :
    (Streams.goneLive cfgC2 100 dbC2 upC2 true).alertAttempted = false ∧
    (Streams.goneLive cfgC2 100 dbC2 upC2 true).notifierCalled = false ∧
    (Streams.goneLive cfgC2 100 dbC2 upC2 true).persisted.lastShoutOut = dbC2.lastShoutOut ∧
    (Streams.goneLive cfgC2 100 dbC2 upC2 true).persisted.isLive = some true ∧
    (Streams.goneLive cfgC2 100 dbC2 upC2 true).persisted.offline_since = dbC2.offline_since :=
  c2_reconnect_blip cfgC2 100 dbC2 upC2 true 97 (by decide) (by decide)

/-! Claim C3: negative time deltas.  A negative hours-since-lastShoutOut
value fails open (the alert is attempted), but a negative
minutes-since-offline value is below any nonnegative reconnect_minutes
threshold and therefore triggers the reconnect-blip suppression: the
engine fails closed there, against the claim. -/

/-- C3 as amended: the reconciliation is total (nothing crashes); a
negative computed hours-since-lastShoutOut never suppresses through the
repeat-shoutout rule, so outside the blip window the alert is attempted;
a negative minutes-since-offline delta, however, satisfies the
reconnect-blip comparison for any nonnegative threshold and suppresses
the alert. -/
theorem c3_negative_deltas (cfg : Config) (now : Int) (stream : DbStream) (upd : TwitchStream)
    (ok : Bool) (t u : Int) :
    (stream.lastShoutOut = some t → Int.tdiv (now - t) 60 < 0 →
      Streams.reconnectBlip cfg now stream = false →
      (Streams.goneLive cfg now stream upd ok).alertAttempted = true) ∧
    (stream.offline_since = some u → now - u < 0 → 0 ≤ cfg.thresholds.reconnect_minutes →
      (Streams.goneLive cfg now stream upd ok).alertAttempted = false ∧
      (Streams.goneLive cfg now stream upd ok).notifierCalled = false) := by
  constructor
  · intro hlast hneg hblip
    have hge : (Streams.shoutOutAgeHours now (Streams.goneLiveMerge stream upd)).geZero
        = false := by
      simp [Streams.shoutOutAgeHours, hlast, JsNum.geZero]
      omega
    have hsup : Streams.repeatShoutOutSuppressed cfg now (Streams.goneLiveMerge stream upd)
        = false := by
      simp [Streams.repeatShoutOutSuppressed, hge]
    simp [Streams.goneLive, hblip, hsup]
  · intro hoff hneg hthr
    have hb : Streams.reconnectBlip cfg now stream = true := by
      simp [Streams.reconnectBlip, Streams.offlineSinceMinutes, hoff]
      omega
    constructor <;> simp [Streams.goneLive, hb]

/-- C3 counterexample: with offline_since 10 minutes in the future the
minutes delta is negative, and the engine suppresses the alert through
the reconnect-blip rule instead of treating it as due. -/
theorem c3_negative_deltas_counterexample :
    dbC3b.offline_since = some 110 ∧ ((100 : Int) - 110 < 0) ∧
    (Streams.goneLive cfgC3 100 dbC3b upC3 true).alertAttempted = false ∧
    (Streams.goneLive cfgC3 100 dbC3b upC3 true).notifierCalled = false := by
  refine ⟨by decide, by decide, by decide, by decide⟩

/-- C3 witness: the amended theorem applied to the two concrete skew
scenarios. -/
theorem c3_negative_deltas_witness :
    (Streams.goneLive cfgC3 100 dbC3a upC3 true).alertAttempted = true ∧
    (Streams.goneLive cfgC3 100 dbC3b upC3 true).alertAttempted = false :=
  ⟨(c3_negative_deltas cfgC3 100 dbC3a upC3 true 1000 0).1 (by decide) (by decide) (by decide),
   ((c3_negative_deltas cfgC3 100 dbC3b upC3 true 0 110).2 (by decide) (by decide)
      (by decide)).1⟩

/-! More shared structural lemmas. -/

@[simp]
lemma isWhitelisted_dbToApp_merge (cfg : Config) (stream : DbStream) (upd : TwitchStream) :
    Streams.isWhitelisted cfg (dbToApp (Streams.goneLiveMerge stream upd))
      = Streams.isWhitelisted cfg (tsToApp upd) := rfl

lemma goneLive_always (cfg : Config) (now : Int) (stream : DbStream) (upd : TwitchStream)
    (ok : Bool) :
    (Streams.goneLive cfg now stream upd ok).persisted.isLive = some true ∧
    (Streams.goneLive cfg now stream upd ok).subscribed = true := by
  cases hb : Streams.reconnectBlip cfg now stream with
  | true => exact ⟨by simp [Streams.goneLive, hb], by simp [Streams.goneLive, hb]⟩
  | false =>
    cases hs : Streams.repeatShoutOutSuppressed cfg now (Streams.goneLiveMerge stream upd) with
    | true => exact ⟨by simp [Streams.goneLive, hb, hs], by simp [Streams.goneLive, hb, hs]⟩
    | false => exact ⟨by simp [Streams.goneLive, hb, hs], by simp [Streams.goneLive, hb, hs]⟩

lemma addNew_always (cfg : Config) (now : Int) (upd : TwitchStream) (ok : Bool) :
    (Streams.addNew cfg now upd ok).persisted.isLive = some true ∧
    (Streams.addNew cfg now upd ok).subscribed = true := by
  exact ⟨by simp [Streams.addNew, Streams.convertToDStream], rfl⟩

/-! Claim C6: repeat-shoutout suppression and the whitelist bypass. -/

/-- C6: outside the reconnect-blip window, with a lastShoutOut less than
shoutout_hours ago, a non-whitelisted channel gets no alert and keeps
its lastShoutOut, while a whitelisted channel gets the alert attempt and
a successful notification refreshes lastShoutOut to now; inside the blip
window the alert is suppressed even for a whitelisted channel. -/
theorem c6_repeat_shoutout (cfg : Config) (now : Int) (stream : DbStream) (upd : TwitchStream)
    (ok : Bool) (t : Int) (hlast : stream.lastShoutOut = some t)
    (h0 : 0 ≤ Int.tdiv (now - t) 60)
    (h1 : Int.tdiv (now - t) 60 < cfg.thresholds.shoutout_hours) :
    (Streams.reconnectBlip cfg now stream = false →
      ((Streams.isWhitelisted cfg (tsToApp upd) = false →
          (Streams.goneLive cfg now stream upd ok).alertAttempted = false ∧
          (Streams.goneLive cfg now stream upd ok).notifierCalled = false ∧
          (Streams.goneLive cfg now stream upd ok).persisted.lastShoutOut
            = stream.lastShoutOut) ∧
       (Streams.isWhitelisted cfg (tsToApp upd) = true →
          (Streams.goneLive cfg now stream upd ok).alertAttempted = true ∧
          ((Streams.goneLive cfg now stream upd ok).outcome
              = some (Streams.AlertOutcome.notified true) →
            (Streams.goneLive cfg now stream upd ok).persisted.lastShoutOut = some now)))) ∧
    (Streams.reconnectBlip cfg now stream = true →
      (Streams.goneLive cfg now stream upd ok).alertAttempted = false) := by
  constructor
  · intro hblip
    constructor
    · intro hwl
      have hsup : Streams.repeatShoutOutSuppressed cfg now (Streams.goneLiveMerge stream upd)
          = true := by
        simp [Streams.repeatShoutOutSuppressed, Streams.shoutOutAgeHours, hlast,
          JsNum.geZero, JsNum.ltInt, hwl]
        exact ⟨h0, h1⟩
      refine ⟨?_, ?_, ?_⟩ <;> simp [Streams.goneLive, hblip, hsup]
    · intro hwl
      have hsup : Streams.repeatShoutOutSuppressed cfg now (Streams.goneLiveMerge stream upd)
          = false := by
        simp [Streams.repeatShoutOutSuppressed, hwl]
      refine ⟨?_, ?_⟩
      · simp [Streams.goneLive, hblip, hsup]
      · intro hoc
        have halert : Streams.alertStream cfg (dbToApp (Streams.goneLiveMerge stream upd)) ok
            = Streams.AlertOutcome.notified true := by
          have h2 := hoc
          simp [Streams.goneLive, hblip, hsup] at h2
          exact h2
        simp [Streams.goneLive, hblip, hsup, halert, Streams.AlertOutcome.resolvedOk]
  · intro hb
    simp [Streams.goneLive, hb]

/-- C6 witness: the theorem applied to the concrete repeat-shoutout
scenario, without and with the whitelist entry. -/
theorem c6_repeat_shoutout_witness :
    ((Streams.goneLive cfgC6 1000 dbC6 upC6 true).alertAttempted = false ∧
      (Streams.goneLive cfgC6 1000 dbC6 upC6 true).persisted.lastShoutOut = some 880) ∧
    ((Streams.goneLive cfgC6w 1000 dbC6 upC6 true).alertAttempted = true ∧
      (Streams.goneLive cfgC6w 1000 dbC6 upC6 true).persisted.lastShoutOut = some 1000) := by
  have hA := ((c6_repeat_shoutout cfgC6 1000 dbC6 upC6 true 880 (by decide) (by decide)
    (by decide)).1 (by decide)).1 (by decide)
  have hB := ((c6_repeat_shoutout cfgC6w 1000 dbC6 upC6 true 880 (by decide) (by decide)
    (by decide)).1 (by decide)).2 (by decide)
  exact ⟨⟨hA.1, hA.2.2⟩, ⟨hB.1, hB.2 (by decide)⟩⟩

/-! Claim C10: a null or undefined title makes alertStream reject before
any blacklist check or notifier call. -/

/-- C10: alertStream on a titleless stream yields the title TypeError,
so the notifier is never invoked; in addNew the failure is caught,
lastShoutOut stays unset and the record is still created as live with
the subscription performed; in goneLive the failure is caught,
lastShoutOut is unchanged and the record is still persisted as live with
the subscription performed. -/
theorem c10_null_title (cfg : Config) (now : Int) (stream : DbStream) (upd : TwitchStream)
    (ok : Bool) (a : AppStream) (ha : a.title = none) (hupd : upd.title = none) :
    Streams.alertStream cfg a ok = Streams.AlertOutcome.titleError ∧
    (Streams.addNew cfg now upd ok).notifierCalled = false ∧
    (Streams.addNew cfg now upd ok).persisted.lastShoutOut = none ∧
    (Streams.addNew cfg now upd ok).persisted.isLive = some true ∧
    (Streams.addNew cfg now upd ok).subscribed = true ∧
    (Streams.goneLive cfg now stream upd ok).notifierCalled = false ∧
    (Streams.goneLive cfg now stream upd ok).persisted.lastShoutOut = stream.lastShoutOut ∧
    (Streams.goneLive cfg now stream upd ok).persisted.isLive = some true ∧
    (Streams.goneLive cfg now stream upd ok).subscribed = true := by
  have hgl := goneLive_always cfg now stream upd ok
  have han := addNew_always cfg now upd ok
  refine ⟨?_, ?_, ?_, han.1, han.2, ?_, ?_, hgl.1, hgl.2⟩
  · simp [Streams.alertStream, ha]
  · simp [Streams.addNew, Streams.alertStream, tsToApp, hupd,
      Streams.AlertOutcome.invokedNotifier]
  · simp [Streams.addNew, Streams.alertStream, tsToApp, hupd,
      Streams.AlertOutcome.resolvedOk, Streams.convertToDStream]
  · cases hb : Streams.reconnectBlip cfg now stream with
    | true => simp [Streams.goneLive, hb]
    | false =>
      cases hs : Streams.repeatShoutOutSuppressed cfg now (Streams.goneLiveMerge stream upd) with
      | true => simp [Streams.goneLive, hb, hs]
      | false =>
        simp [Streams.goneLive, hb, hs, Streams.alertStream, dbToApp, hupd,
          Streams.AlertOutcome.invokedNotifier]
  · cases hb : Streams.reconnectBlip cfg now stream with
    | true => simp [Streams.goneLive, hb]
    | false =>
      cases hs : Streams.repeatShoutOutSuppressed cfg now (Streams.goneLiveMerge stream upd) with
      | true => simp [Streams.goneLive, hb, hs]
      | false =>
        simp [Streams.goneLive, hb, hs, Streams.alertStream, dbToApp, hupd,
          Streams.AlertOutcome.resolvedOk]

/-! Claim C7: blacklist suppression.  The claim quantifies over every
stream whose title contains a blacklisted keyword or whose channel id is
in the blacklisted user-id set; the code guards both checks behind JS
truthiness, so an empty title (with the empty keyword blacklisted) and
an empty channel id slip past them and the notifier fires. -/

lemma alertStream_blacklisted (cfg : Config) (s : AppStream) (ok : Bool)
    (h : claimBlacklisted cfg s = true) :
    (Streams.alertStream cfg s ok).invokedNotifier = false := by
  cases s with
  | mk id uid uname title tids live lso offs =>
    cases title with
    | none => rfl
    | some t =>
      simp only [Streams.alertStream]
      split
      · rfl
      · split
        · rfl
        · split
          · rfl
          · exfalso
            rename_i hkw htag huser
            unfold claimBlacklisted at h
            dsimp only at h
            rw [Bool.or_eq_true, Bool.or_eq_true] at h
            rcases h with (hk | ht) | hu
            · exact hkw hk
            · exact htag ht
            · exact huser hu

/-- C7 as amended: for a stream blacklisted by a non-empty title holding
a blacklisted keyword, by a tag intersection, or by a non-empty
blacklisted channel id, the notifier is never invoked in the goneLive
and addNew paths, while the record is still persisted live and the
webhook subscription still happens. -/
theorem c7_blacklist_suppression (cfg : Config) (now : Int) (stream : DbStream)
    (upd : TwitchStream) (ok : Bool) (h : claimBlacklisted cfg (tsToApp upd) = true) :
    (Streams.goneLive cfg now stream upd ok).notifierCalled = false ∧
    (Streams.goneLive cfg now stream upd ok).persisted.isLive = some true ∧
    (Streams.goneLive cfg now stream upd ok).subscribed = true ∧
    (Streams.addNew cfg now upd ok).notifierCalled = false ∧
    (Streams.addNew cfg now upd ok).persisted.isLive = some true ∧
    (Streams.addNew cfg now upd ok).subscribed = true := by
  have hgl := goneLive_always cfg now stream upd ok
  have han := addNew_always cfg now upd ok
  have hmerge : claimBlacklisted cfg (dbToApp (Streams.goneLiveMerge stream upd)) = true := h
  have hnews : claimBlacklisted cfg
      ({ tsToApp upd with isLive := some true, lastShoutOut := none, offline_since := none }
        : AppStream) = true := h
  refine ⟨?_, hgl.1, hgl.2, ?_, han.1, han.2⟩
  · cases hb : Streams.reconnectBlip cfg now stream with
    | true => simp [Streams.goneLive, hb]
    | false =>
      cases hs : Streams.repeatShoutOutSuppressed cfg now (Streams.goneLiveMerge stream upd) with
      | true => simp [Streams.goneLive, hb, hs]
      | false =>
        have key := alertStream_blacklisted cfg (dbToApp (Streams.goneLiveMerge stream upd))
          ok hmerge
        simp [Streams.goneLive, hb, hs, key]
  · have key := alertStream_blacklisted cfg
      ({ tsToApp upd with isLive := some true, lastShoutOut := none, offline_since := none })
      ok hnews
    simpa [Streams.addNew] using key

/-- C7 counterexample: the stream satisfies the claim blacklist
condition twice over (its title contains the blacklisted empty keyword,
and its channel id is in the blacklisted user-id set), yet both addNew
and goneLive invoke the notifier, because the empty title and the empty
user id are JS-falsy and skip the respective checks. -/
theorem c7_blacklist_suppression_counterexample :
    (upC7x.title = some "" ∧ strIncludes (jsLower "") (jsLower "") = true ∧
      ("" : String) ∈ cfgC7x.blacklist.keywords ∧
      upC7x.user_id ∈ cfgC7x.blacklist.userIds) ∧
    (Streams.addNew cfgC7x 100 upC7x true).notifierCalled = true ∧
    (Streams.goneLive cfgC7x 100 dbC7x upC7x true).notifierCalled = true := by
  refine ⟨⟨by decide, by decide, by decide, by decide⟩, by decide, by decide⟩

/-- C7 witness: the amended theorem applied to the concrete blacklisted
scenario. -/
theorem c7_blacklist_suppression_witness :
    (Streams.goneLive cfgC7 100 dbC7 upC7 true).notifierCalled = false ∧
    (Streams.goneLive cfgC7 100 dbC7 upC7 true).persisted.isLive = some true ∧
    (Streams.goneLive cfgC7 100 dbC7 upC7 true).subscribed = true ∧
    (Streams.addNew cfgC7 100 upC7 true).notifierCalled = false ∧
    (Streams.addNew cfgC7 100 upC7 true).persisted.isLive = some true ∧
    (Streams.addNew cfgC7 100 upC7 true).subscribed = true :=
  c7_blacklist_suppression cfgC7 100 dbC7 upC7 true (by decide)

/-! Claim C8: ensureToken idempotence.  The code caches the token and a
second call returns it without an exchange, but the cache test is JS
truthiness: an empty access_token is refetched, so the claim needs the
first resolved token to be truthy. -/

/-- C8 as amended: when the first ensureToken call resolves to a truthy
token, a second call with no intervening 401 returns the identical
value, leaves the cached token alone and consumes no token-endpoint
exchange; after a 401 (which stores null in the token variable, as the
third conjunct shows for the exhausted-budget path) a call performs
exactly one fresh exchange and returns the newly fetched access
token. -/
theorem c8_token_reuse :
    (∀ (st : Option String) (sup : List Twitch.ExchangeResult),
      jsTruthyStr (Twitch.ensureToken st sup).1 = true →
        Twitch.ensureToken (Twitch.ensureToken st sup).2.1 (Twitch.ensureToken st sup).2.2
          = Twitch.ensureToken st sup) ∧
    (∀ (a : Option String) (rest : List Twitch.ExchangeResult),
      Twitch.ensureToken none (Twitch.ExchangeResult.ok a :: rest) = (a, a, rest)) ∧
    (∀ (b : String) (rest : List Twitch.Resp) (tok : Option String)
        (sup : List Twitch.ExchangeResult),
      Twitch.apiRequest ({ status := 401, body := b } :: rest) 0 tok sup
        = (Twitch.ApiOut.exit 1, none, sup)) := by
  refine ⟨?_, ?_, ?_⟩
  · intro st sup htr
    by_cases h : jsTruthyStr st = true
    · simp [Twitch.ensureToken, h]
    · rw [Bool.not_eq_true] at h
      cases sup with
      | nil =>
        have he : Twitch.ensureToken st [] = (none, st, []) := by
          simp [Twitch.ensureToken, h]
        rw [he] at htr
        simp [jsTruthyStr] at htr
      | cons r rest =>
        cases r with
        | ok a =>
          have he : Twitch.ensureToken st (Twitch.ExchangeResult.ok a :: rest)
              = (a, a, rest) := by
            simp [Twitch.ensureToken, h]
          rw [he] at htr
          rw [he]
          simp [Twitch.ensureToken, htr]
        | httpStatus n =>
          have he : Twitch.ensureToken st (Twitch.ExchangeResult.httpStatus n :: rest)
              = (none, none, rest) := by
            simp [Twitch.ensureToken, h]
          rw [he] at htr
          simp [jsTruthyStr] at htr
  · intro a rest
    rfl
  · intro b rest tok sup
    rfl

/-- C8 counterexample: the first call resolves to the empty string
token, which JS treats as falsy, so the second call — with no 401 in
between — performs another exchange and resolves to a different token
value, against the claim. -/
theorem c8_token_reuse_counterexample :
    Twitch.ensureToken none supC8
      = (some "", some "", [Twitch.ExchangeResult.ok (some "a")]) ∧
    Twitch.ensureToken (some "") [Twitch.ExchangeResult.ok (some "a")]
      = (some "a", some "a", []) ∧
    (some "" : Option String) ≠ some "a" := by
  refine ⟨by decide, by decide, by decide⟩

/-- C8 witness: the amended theorem applied to a concrete exchange that
yields a non-empty token, and to a concrete fresh-exchange call after
the cache was cleared. -/
theorem c8_token_reuse_witness :
    Twitch.ensureToken (Twitch.ensureToken none [Twitch.ExchangeResult.ok (some "tokA")]).2.1
        (Twitch.ensureToken none [Twitch.ExchangeResult.ok (some "tokA")]).2.2
      = Twitch.ensureToken none [Twitch.ExchangeResult.ok (some "tokA")] ∧
    Twitch.ensureToken none [Twitch.ExchangeResult.ok (some "tokB")]
      = (some "tokB", some "tokB", []) :=
  ⟨c8_token_reuse.1 none [Twitch.ExchangeResult.ok (some "tokA")] (by decide),
   c8_token_reuse.2.1 (some "tokB") []⟩

/-! Claim C1: the retry budget of apiRequest.  The double-401 half
holds: the re-issued request exits the process.  The 401-then-200 half
fails in the code: the rejection handler triggers the retry but does not
return its promise chain, so the outer promise resolves to undefined
instead of the decoded body. -/

/-- C1 evaluated at the claim scenarios: with retries 1 a 401 followed
by a 200 with body BODY resolves the outer promise to undefined, not to
the decoded body (third conjunct shows the re-issued request on its own
would have resolved to the body, so the value is lost in the handler);
with retries 1 two consecutive 401 responses terminate the process with
exit code 1. -/
theorem c1_retry_budget :
    (Twitch.apiRequest [⟨401, "x"⟩, ⟨200, "BODY"⟩] 1 (some "tok")
        [Twitch.ExchangeResult.ok (some "t2")]).1 = Twitch.ApiOut.val Twitch.ApiVal.undef ∧
    (Twitch.apiRequest [⟨401, "x"⟩, ⟨200, "BODY"⟩] 1 (some "tok")
        [Twitch.ExchangeResult.ok (some "t2")]).1
      ≠ Twitch.ApiOut.val (Twitch.ApiVal.body "BODY") ∧
    (Twitch.apiRequest [⟨200, "BODY"⟩] 0 (some "t2") []).1
      = Twitch.ApiOut.val (Twitch.ApiVal.body "BODY") ∧
    (Twitch.apiRequest [⟨401, "x"⟩, ⟨401, "y"⟩] 1 (some "tok")
        [Twitch.ExchangeResult.ok (some "t2")]).1 = Twitch.ApiOut.exit 1 := by
  refine ⟨by decide, by decide, by decide, by decide⟩

/-- C10 witness: the theorem applied to the concrete titleless
scenario. -/
theorem c10_null_title_witness :
    Streams.alertStream cfgC10 (tsToApp upC10) true = Streams.AlertOutcome.titleError ∧
    (Streams.addNew cfgC10 100 upC10 true).notifierCalled = false ∧
    (Streams.addNew cfgC10 100 upC10 true).persisted.lastShoutOut = none ∧
    (Streams.addNew cfgC10 100 upC10 true).persisted.isLive = some true ∧
    (Streams.addNew cfgC10 100 upC10 true).subscribed = true ∧
    (Streams.goneLive cfgC10 100 dbC10 upC10 true).notifierCalled = false ∧
    (Streams.goneLive cfgC10 100 dbC10 upC10 true).persisted.lastShoutOut
      = dbC10.lastShoutOut ∧
    (Streams.goneLive cfgC10 100 dbC10 upC10 true).persisted.isLive = some true ∧
    (Streams.goneLive cfgC10 100 dbC10 upC10 true).subscribed = true :=
  c10_null_title cfgC10 100 dbC10 upC10 true (tsToApp upC10) (by decide) (by decide)

/-! Claim C4: pagination.  The stream listing stops exactly as claimed,
but the tag catalog only stops when the data array is absent or the
cursor falsy: an empty-but-present data page with a cursor keeps
paginating, so later pages still enter the result. -/

lemma getAllTags_acc (pages : List Twitch.TagPage) (acc : List Twitch.TagEntry) :
    Twitch.getAllTags pages acc
      = (Twitch.tagCatalogAmended pages).map (fun ts => acc ++ ts) := by
  induction pages generalizing acc with
  | nil => rfl
  | cons p rest ih =>
    cases hd : p.data with
    | none => simp [Twitch.getAllTags, Twitch.tagCatalogAmended, hd]
    | some d =>
      cases hc : jsTruthyStr p.cursor with
      | true =>
        simp only [Twitch.getAllTags, Twitch.tagCatalogAmended, hd, hc, if_true, ih]
        cases Twitch.tagCatalogAmended rest with
        | none => rfl
        | some ts => simp
      | false =>
        simp [Twitch.getAllTags, Twitch.tagCatalogAmended, hd, hc]

lemma getStreams_acc (pages : List Twitch.StreamPage) (acc : List TwitchStream) :
    Twitch.getStreams pages acc
      = (Twitch.streamListAmended pages).map (fun ss => acc ++ ss) := by
  induction pages generalizing acc with
  | nil => rfl
  | cons p rest ih =>
    cases hd : p.data with
    | none => simp [Twitch.getStreams, Twitch.streamListAmended, hd]
    | some d =>
      cases hc : (jsTruthyStr p.cursor && decide (100 ≤ d.length)) with
      | true =>
        simp only [Twitch.getStreams, Twitch.streamListAmended, hd, hc, if_true, ih]
        cases Twitch.streamListAmended rest with
        | none => rfl
        | some ss => simp
      | false =>
        simp [Twitch.getStreams, Twitch.streamListAmended, hd, hc]

/-- C4 as amended: the tag catalog equals the fold that stops on an
absent data array or falsy cursor and concatenates every consumed page;
the stream listing equals the fold that additionally stops on any page
shorter than 100 items; in both, each step passes the cursor of the
previous response. -/
theorem c4_pagination :
    (∀ pages, Twitch.getAllTags pages [] = Twitch.tagCatalogAmended pages) ∧
    (∀ spages, Twitch.getStreams spages [] = Twitch.streamListAmended spages) := by
  constructor
  · intro pages
    rw [getAllTags_acc]
    cases Twitch.tagCatalogAmended pages <;> simp
  · intro spages
    rw [getStreams_acc]
    cases Twitch.streamListAmended spages <;> simp

/-- C4 counterexample: on the script holding an empty-but-present data
page carrying a cursor followed by a one-tag page, the code keeps
paginating and returns the later tag, while the claim rule stops at the
empty page with an empty result. -/
theorem c4_pagination_counterexample :
    Twitch.getAllTags [⟨some [], some "c"⟩, ⟨some [⟨"t", "n"⟩], none⟩] []
      = some [⟨"t", "n"⟩] ∧
    Twitch.tagCatalogClaim [⟨some [], some "c"⟩, ⟨some [⟨"t", "n"⟩], none⟩] = some [] ∧
    (some [(⟨"t", "n"⟩ : Twitch.TagEntry)] : Option (List Twitch.TagEntry)) ≠ some [] := by
  refine ⟨by decide, by decide, by decide⟩

/-! Claim C5: deduplication in getStreamsByMetadata.  The reduce
deduplicates by stream id with first-seen-wins, so a doubly matched
stream appears once, but nothing deduplicates by channel id: two
distinct stream ids of the same channel both survive. -/

lemma dedup_foldl_find (l acc : List TwitchStream) (i : String) :
    ((l.foldl Twitch.dedupStep acc).find? (fun x => x.id == i))
      = ((acc.find? (fun x => x.id == i)).or (l.find? (fun x => x.id == i))) := by
  induction l generalizing acc with
  | nil => simp
  | cons s rest ih =>
    rw [List.foldl_cons, ih]
    by_cases hmem : (acc.find? (fun x => x.id == s.id)).isSome = true
    · rw [show Twitch.dedupStep acc s = acc from by simp [Twitch.dedupStep, hmem]]
      cases hsi : (s.id == i) with
      | true =>
        have hs2 : s.id = i := by simpa using hsi
        rw [hs2] at hmem
        obtain ⟨v, hv⟩ := Option.isSome_iff_exists.mp hmem
        rw [List.find?_cons, hsi, hv]
        rfl
      | false =>
        rw [List.find?_cons, hsi]
    · rw [show Twitch.dedupStep acc s = acc ++ [s] from by simp [Twitch.dedupStep, hmem]]
      rw [List.find?_append, Option.or_assoc]
      congr 1
      cases hsi : (s.id == i) with
      | true => simp [List.find?_cons, hsi]
      | false => simp [List.find?_cons, hsi]

lemma dedup_foldl_nodup (l acc : List TwitchStream)
    (h : (acc.map TwitchStream.id).Nodup) :
    ((l.foldl Twitch.dedupStep acc).map TwitchStream.id).Nodup := by
  induction l generalizing acc with
  | nil => simpa using h
  | cons s rest ih =>
    rw [List.foldl_cons]
    apply ih
    by_cases hmem : (acc.find? (fun x => x.id == s.id)).isSome = true
    · rw [show Twitch.dedupStep acc s = acc from by simp [Twitch.dedupStep, hmem]]
      exact h
    · rw [show Twitch.dedupStep acc s = acc ++ [s] from by simp [Twitch.dedupStep, hmem]]
      have hnot : s.id ∉ acc.map TwitchStream.id := by
        intro hmemId
        rcases List.mem_map.mp hmemId with ⟨x, hx, hxid⟩
        apply hmem
        rw [List.find?_isSome]
        exact ⟨x, hx, by simp [hxid]⟩
      rw [List.map_append]
      simp [List.nodup_append, h, hnot]

lemma countP_id_eq_count_map (l : List TwitchStream) (i : String) :
    l.countP (fun x => x.id == i) = (l.map TwitchStream.id).count i := by
  induction l with
  | nil => rfl
  | cons s rest ih =>
    simp only [List.countP_cons, List.map_cons, List.count_cons, ih]

/-- C5 as amended: the result of getStreamsByMetadata holds each stream
id at most once; the entry kept for an id is the first occurrence in the
concatenation of tag results then keyword results (so the tag-matched
copy takes precedence); a stream of the fetched list matched by both
filters appears exactly once. -/
theorem c5_metadata_dedup (streams : List TwitchStream) (tagIds keywords : List String) :
    ((Twitch.getStreamsByMetadata streams tagIds keywords).map TwitchStream.id).Nodup ∧
    (∀ i, (Twitch.getStreamsByMetadata streams tagIds keywords).find? (fun x => x.id == i)
        = ((Twitch.getStreamsByTagId streams tagIds)
            ++ (Twitch.getStreamsByKeywords streams keywords)).find? (fun x => x.id == i)) ∧
    (∀ s, s ∈ streams → Twitch.tagFilterMatch tagIds s = true →
      Twitch.kwFilterMatch keywords s = true →
      (Twitch.getStreamsByMetadata streams tagIds keywords).countP
          (fun x => x.id == s.id) = 1) := by
  refine ⟨?_, ?_, ?_⟩
  · exact dedup_foldl_nodup _ [] (by simp)
  · intro i
    unfold Twitch.getStreamsByMetadata
    rw [dedup_foldl_find]
    simp
  · intro s hs htag hkw
    have hmem1 : s ∈ Twitch.getStreamsByTagId streams tagIds :=
      List.mem_filter.mpr ⟨hs, htag⟩
    have hconc : s ∈ (Twitch.getStreamsByTagId streams tagIds
        ++ Twitch.getStreamsByKeywords streams keywords) := List.mem_append_left _ hmem1
    have hfind : ((Twitch.getStreamsByTagId streams tagIds
        ++ Twitch.getStreamsByKeywords streams keywords).find?
          (fun x => x.id == s.id)).isSome := by
      rw [List.find?_isSome]
      exact ⟨s, hconc, by simp⟩
    have hres : ((Twitch.getStreamsByMetadata streams tagIds keywords).find?
        (fun x => x.id == s.id)).isSome := by
      unfold Twitch.getStreamsByMetadata
      rw [dedup_foldl_find]
      simpa using hfind
    obtain ⟨v, hv⟩ := Option.isSome_iff_exists.mp hres
    have hvmem : v ∈ Twitch.getStreamsByMetadata streams tagIds keywords :=
      List.mem_of_find?_eq_some hv
    have hvid2 : v.id = s.id := by simpa using List.find?_some hv
    have hmemId : s.id ∈ (Twitch.getStreamsByMetadata streams tagIds keywords).map
        TwitchStream.id := List.mem_map.mpr ⟨v, hvmem, hvid2⟩
    rw [countP_id_eq_count_map]
    exact List.count_eq_one_of_mem (dedup_foldl_nodup _ [] (by simp)) hmemId

/-- C5 counterexample: two tag-matched entries of the same channel with
distinct stream ids both survive the dedup, so a channel id can occur
twice in the result; the dedup key is the stream id, not the channel
id. -/
theorem c5_metadata_dedup_counterexample :
    Twitch.getStreamsByMetadata [s1C5, s2C5] ["t"] [] = [s1C5, s2C5] ∧
    s1C5.user_id = "u" ∧ s2C5.user_id = "u" ∧
    (Twitch.getStreamsByMetadata [s1C5, s2C5] ["t"] []).countP
        (fun x => x.user_id == "u") = 2 := by
  refine ⟨by decide, by decide, by decide, by decide⟩

/-- C5 witness: the amended theorem applied to a concrete doubly-matched
stream, which appears exactly once in the deduplicated result. -/
theorem c5_metadata_dedup_witness :
    ((Twitch.getStreamsByMetadata [sC5w] ["t"] ["x"]).map TwitchStream.id).Nodup ∧
    (Twitch.getStreamsByMetadata [sC5w] ["t"] ["x"]).countP (fun x => x.id == sC5w.id) = 1 :=
  ⟨(c5_metadata_dedup [sC5w] ["t"] ["x"]).1,
   (c5_metadata_dedup [sC5w] ["t"] ["x"]).2.2 sC5w (by simp) (by decide) (by decide)⟩
